import Mathlib

/-!
Shallow embedding of the session-authenticated access-control subsystem of the
solid-js user-authentication repository.

The repository contains two variants of the subsystem:

* `AuthTs` / `RouteGuard` model src/lib/auth.ts and src/lib/RouteGuard.tsx
  (sqlite credential store, vinxi session, registration gated by the
  REGISTRATION_ENABLED environment variable);
* `Db` / `Server` / `AuthApi` model the with-auth variant
  (the db layer with createUser/findUserByUsername/findUserById/
  getUserPasswordHash/deleteUser gated by SUDO_MODE, the server.ts layer with
  validateUsername/validatePassword/login/register, and the routing layer with
  getUser/requireUser/loginOrRegister).

Database access is modelled as first-match lookup over a list of rows (sqlite
returns rows in rowid order, and INSERT appends).  bcrypt is modelled as an
abstract injective digest: hashing is deterministic in the model, and compare
succeeds exactly on the digest of the same plaintext, which is the behavioural
contract the code relies on.  JavaScript truthiness of strings (empty string is
falsy) is modelled explicitly because several guards in the source use it.
Thrown exceptions become Except or Option results; a redirect is the
Except.error value carrying the redirect target.
-/

/-- JavaScript truthiness of a string: truthy iff nonempty. -/
def strTruthy (s : String) : Bool := !s.isEmpty

/-- JavaScript truthiness of a possibly null/undefined string field. -/
def optStrTruthy : Option String → Bool
  | none => false
  | some s => strTruthy s

/-- JavaScript truthiness of a possibly undefined boolean. -/
def optTruthy : Option Bool → Bool
  | none => false
  | some b => b

/-- Model of bcrypt.hash at cost 12 (src/lib/auth.ts hashPassword and
src/lib/auth/hash.ts hashPassword): an abstract injective digest whose encoding
embeds the algorithm/cost prefix.  The real function is salted and
nondeterministic; the model keeps the property the code relies on, namely that
compare recognises exactly the digest of the same plaintext. -/
def hashPassword (password : String) : String := "$2b$12$" ++ password

/-- Model of bcrypt.compare (verifyPassword in both variants). -/
def verifyPassword (password hash : String) : Bool := hash == hashPassword password

/-- One row of the users table
(id TEXT PRIMARY KEY, username TEXT UNIQUE NOT NULL, pass_hash TEXT NOT NULL). -/
structure UserRow where
  id : String
  username : String
  pass_hash : String
deriving Repr, DecidableEq

/-- The credential store: the users table as a list of rows in rowid order. -/
abbrev Store := List UserRow

/-- The identity record returned to callers: export type User = { id, username }
(declared identically in src/lib/auth.ts and in the with-auth variant). -/
structure User where
  id : String
  username : String
deriving Repr, DecidableEq

namespace AuthTs

/-- The session data object held by the vinxi auth session.  The source
declares UserSessionData = { id?: string, theme?: string } but loginUser writes
the object literal with id and username, so the model carries all three
possibly-present fields. -/
structure UserSessionData where
  id : Option String
  username : Option String
  theme : Option String
deriving Repr, DecidableEq

/-- Outcome of consulting the sqlite handle: either the store contents, or a
thrown storage error (caught by the callers' try/catch blocks). -/
inductive StoreAccess where
  | ok (store : Store)
  | err
deriving Repr, DecidableEq

/-- getUserId (auth.ts): SELECT id FROM users WHERE username = ?, null if absent. -/
def getUserId (store : Store) (username : String) : Option String :=
  (store.find? (fun r => r.username == username)).map (fun r => r.id)

/-- getStoredPasswordHash (auth.ts): SELECT pass_hash FROM users WHERE id = ?;
none models the thrown user-not-found error, handled at each call site's catch. -/
def getStoredPasswordHash (store : Store) (userId : String) : Option String :=
  (store.find? (fun r => r.id == userId)).map (fun r => r.pass_hash)

/-- Result shape { success: boolean, error?: string } returned by
registerUser, loginUser, updateUserPassword and deleteUser in auth.ts. -/
structure RegistrationMessage where
  success : Bool
  error : Option String
deriving Repr, DecidableEq

/-- getUser (auth.ts): resolve the session to a fresh identity.
Checks session.data and session.data.id by truthiness, then re-reads the store
by the contained id; any missing row or thrown storage error yields null.  The
second component is the session data the client is left with: getUser never
modifies the session (the source explicitly avoids clearing it). -/
def getUser (sess : Option UserSessionData) (db : StoreAccess) :
    Option User × Option UserSessionData :=
  match sess with
  | none => (none, none)
  | some data =>
    match data.id with
    | none => (none, some data)
    | some uid =>
      if !strTruthy uid then (none, some data)
      else
        match db with
        | .err => (none, some data)
        | .ok store =>
          match store.find? (fun r => r.id == uid) with
          | none => (none, some data)
          | some row => (some { id := row.id, username := row.username }, some data)

/-- getUser (auth.ts) again, instrumented with the number of credential-store
queries the call performs: the body reaches its single
SELECT id, username FROM users WHERE id = ? exactly when the session carries a
truthy id, and the throwing attempt on a failing store still counts as one
query.  getUser is not wrapped in the router's query combinator, so every call
site runs this body afresh. -/
def getUserCounted (sess : Option UserSessionData) (db : StoreAccess) :
    Option User × Nat :=
  match sess with
  | none => (none, 0)
  | some data =>
    match data.id with
    | none => (none, 0)
    | some uid =>
      if !strTruthy uid then (none, 0)
      else
        match db with
        | .err => (none, 1)
        | .ok store =>
          match store.find? (fun r => r.id == uid) with
          | none => (none, 1)
          | some row => (some { id := row.id, username := row.username }, 1)

/-- Total credential-store queries when n independent call sites (such as
ensureAuthenticated, getDb, getNote and listNotes) each invoke the unmemoized
auth.ts getUser once within one logical request: the calls share no cache, so
the counts simply accumulate. -/
def requestLookups (n : Nat) (sess : Option UserSessionData) (db : StoreAccess) : Nat :=
  match n with
  | 0 => 0
  | m + 1 => (getUserCounted sess db).2 + requestLookups m sess db

/-- registerUser (auth.ts).  registrationEnabled is process.env.REGISTRATION_ENABLED;
newId models the id the database generates (hex(randomblob(16))).  The third
branch models the sqlite UNIQUE/PRIMARY KEY constraint violation thrown by the
INSERT and caught by the function's try/catch. -/
def registerUser (registrationEnabled : Option String) (store : Store)
    (username password newId : String) : RegistrationMessage × Store :=
  if registrationEnabled != some "true" then
    ({ success := false, error := some "Registration is currently closed" }, store)
  else if optStrTruthy (getUserId store username) then
    ({ success := false, error := some "Error, user already exists" }, store)
  else if store.any (fun r => r.username == username) || store.any (fun r => r.id == newId) then
    ({ success := false,
       error := some ("Failed to create user " ++ username ++ ": SqliteError") }, store)
  else
    ({ success := true, error := none },
     store ++ [{ id := newId, username := username, pass_hash := hashPassword password }])

/-- loginUser (auth.ts): looks the user up by username, verifies the password
against the stored hash, and on success replaces the session data with the
object literal written by session.update, namely id and username. -/
def loginUser (store : Store) (sess : Option UserSessionData)
    (username password : String) : RegistrationMessage × Option UserSessionData :=
  match getUserId store username with
  | none => ({ success := false, error := some "Error, user does not exists" }, sess)
  | some uid =>
    if !strTruthy uid then
      ({ success := false, error := some "Error, user does not exists" }, sess)
    else
      match getStoredPasswordHash store uid with
      | none =>
        ({ success := false,
           error := some ("Error Logging in User: Error: User with id " ++ uid ++ " not found") },
         sess)
      | some storedHash =>
        if !verifyPassword password storedHash then
          ({ success := false, error := some "Invalid password" }, sess)
        else
          ({ success := true, error := none },
           some { id := some uid, username := some username, theme := none })

end AuthTs

namespace RouteGuard

/-- ensureAuthenticated (RouteGuard.tsx): resolves the session through
AuthTs.getUser and redirects to /login unless the result is a truthy object
with a truthy id field; otherwise returns true. -/
def ensureAuthenticated (sess : Option AuthTs.UserSessionData)
    (db : AuthTs.StoreAccess) : Except String Bool :=
  match (AuthTs.getUser sess db).1 with
  | none => .error "/login"
  | some user => if !strTruthy user.id then .error "/login" else .ok true

/-- One run of the createEffect body in RouteGuard: if the async auth status is
truthy, setIsUser(true); otherwise the isUser signal keeps its value.  The
effect input is the current value of userAuthStatus(): undefined while pending,
or the resolved boolean. -/
def guardStep (isUser : Bool) (authStatus : Option Bool) : Bool :=
  if optTruthy authStatus then true else isUser

/-- The isUser signal after a sequence of effect runs, starting from the
initial createSignal(false). -/
def runGuard (trace : List (Option Bool)) : Bool :=
  trace.foldl guardStep false

/-- Whether the protected children are rendered after the trace: the JSX is
Show when={isUser()}, so children are revealed exactly when the derived
boolean is true. -/
def shownChildren (trace : List (Option Bool)) : Bool := runGuard trace

/-- Number of false-to-true transitions of the isUser signal along a trace,
starting from the given signal value. -/
def flipCountFrom (isUser : Bool) : List (Option Bool) → Nat
  | [] => 0
  | a :: rest =>
    (if isUser == false && guardStep isUser a == true then 1 else 0) +
      flipCountFrom (guardStep isUser a) rest

/-- Number of false-to-true transitions of the isUser signal, from the initial
false. -/
def flipCount (trace : List (Option Bool)) : Nat := flipCountFrom false trace

end RouteGuard

namespace Db

/-- findUserByUsername: SELECT id, username FROM users WHERE username = ?. -/
def findUserByUsername (store : Store) (username : String) : Option UserRow :=
  store.find? (fun r => r.username == username)

/-- findUserById: SELECT id, username FROM users WHERE id = ?. -/
def findUserById (store : Store) (id : String) : Option UserRow :=
  store.find? (fun r => r.id == id)

/-- getUserPasswordHash: SELECT pass_hash FROM users WHERE username = ?. -/
def getUserPasswordHash (store : Store) (username : String) : Option String :=
  (findUserByUsername store username).map (fun r => r.pass_hash)

/-- createUser: gated by SUDO_MODE; generates an id (modelled by newId), hashes
the password and inserts the row.  The inner error models the sqlite constraint
violation thrown by the INSERT when id or username already exists. -/
def createUser (sudoMode : Bool) (store : Store)
    (username password newId : String) : Except String (User × Store) :=
  if sudoMode then
    if store.any (fun r => r.id == newId) || store.any (fun r => r.username == username) then
      .error "SqliteError: UNIQUE constraint failed"
    else
      .ok ({ id := newId, username := username },
        store ++ [{ id := newId, username := username, pass_hash := hashPassword password }])
  else
    .error "User Registration is not Authorized"

/-- deleteUser: gated by SUDO_MODE; DELETE FROM users WHERE id = ?, throwing
User not found when no row changed. -/
def deleteUser (sudoMode : Bool) (store : Store) (userId : String) :
    Except String Store :=
  if sudoMode then
    let remaining := store.filter (fun r => r.id != userId)
    if remaining.length == store.length then .error "User not found"
    else .ok remaining
  else
    .error "User Removal is not Authorized"

end Db

/-- The session data managed by the with-auth variant's getSession: only the
userId field is ever written. -/
structure SessionData where
  userId : Option String
deriving Repr, DecidableEq

namespace Server

/-- validateUsername: usernames shorter than 3 characters are rejected with a
message; valid input yields undefined.  (The non-string branch cannot arise:
the caller always passes String(formData.get(..)).) -/
def validateUsername (username : String) : Option String :=
  if username.length < 3 then some "Usernames must be at least 3 characters long"
  else none

/-- validatePassword: passwords shorter than 16 characters are rejected. -/
def validatePassword (password : String) : Option String :=
  if password.length < 16 then some "Passwords must be at least 16 characters long"
  else none

/-- login (server.ts): throws the identical message Invalid login for a missing
user, a missing/empty stored hash, and a failed password comparison. -/
def login (store : Store) (username password : String) : Except String User :=
  match Db.findUserByUsername store username with
  | none => .error "Invalid login"
  | some user =>
    match Db.getUserPasswordHash store username with
    | none => .error "Invalid login"
    | some passwordHash =>
      if !strTruthy passwordHash then .error "Invalid login"
      else if verifyPassword password passwordHash then
        .ok { id := user.id, username := user.username }
      else .error "Invalid login"

/-- register (server.ts): checks username existence first, then defers to
Db.createUser (which enforces the SUDO_MODE registration switch). -/
def register (sudoMode : Bool) (store : Store)
    (username password newId : String) : Except String (User × Store) :=
  match Db.findUserByUsername store username with
  | some _ => .error "User already exists"
  | none => Db.createUser sudoMode store username password newId

/-- logout (server.ts): session.update setting userId to undefined. -/
def logout (sess : SessionData) : SessionData := { sess with userId := none }

end Server

namespace AuthApi

/-- getUser (with-auth variant): read session.data.userId, look the id up in
the store and return a freshly read identity.  The whole body runs in a
try/catch, so any failure (no userId in the session, a store error thrown by
findUserById — the AuthTs.StoreAccess.err case — or no matching row) is
caught, logs the client out (userId cleared) and redirects to /login.  The
second component is the session the client is left with. -/
def getUser (db : AuthTs.StoreAccess) (sess : SessionData) :
    Except String User × SessionData :=
  match sess.userId with
  | none => (.error "/login", { userId := none })
  | some uid =>
    match db with
    | .err => (.error "/login", { userId := none })
    | .ok store =>
      match Db.findUserById store uid with
      | none => (.error "/login", { userId := none })
      | some user => (.ok { id := user.id, username := user.username }, sess)

deriving instance DecidableEq for Except

/-- State of one logical request against the credential store: the store, the
client session, the per-request cache of the resolver outcome, and a counter
of credential-store lookups performed so far. -/
structure ReqCtx where
  store : Store
  sess : SessionData
  cache : Option (Except String User)
  storeLookups : Nat
deriving Repr, DecidableEq

/-- Modelled from the spec: the Single-Check Memoization Layer.  In the source,
getUser is wrapped in the router's query(..., "user") combinator, whose
per-request deduplication is library code outside this repository; the spec
states that within one logical request the Session Resolver executes at most
once regardless of how many call sites ask.  The model runs the getUser body
above on the first call, records its outcome in the request-scoped cache, and
serves every later call from the cache; storeLookups counts actual
credential-store queries. -/
def getUserQuery (ctx : ReqCtx) : Except String User × ReqCtx :=
  match ctx.cache with
  | some r => (r, ctx)
  | none =>
    match ctx.sess.userId with
    | none =>
      (.error "/login",
       { ctx with sess := { userId := none }, cache := some (.error "/login") })
    | some uid =>
      match Db.findUserById ctx.store uid with
      | none =>
        (.error "/login",
         { ctx with sess := { userId := none }, cache := some (.error "/login"),
                    storeLookups := ctx.storeLookups + 1 })
      | some user =>
        (.ok { id := user.id, username := user.username },
         { ctx with cache := some (.ok { id := user.id, username := user.username }),
                    storeLookups := ctx.storeLookups + 1 })

/-- The defensive re-check requireUser performs on the resolver result:
if (!user || typeof user !== "object" || !user.id || !user.username) the call
fails with a redirect, otherwise the user is returned. -/
def requireCheck (r : Except String User) : Except String User :=
  match r with
  | .error e => .error e
  | .ok user =>
    if !strTruthy user.id || !strTruthy user.username then .error "/login"
    else .ok user

/-- requireUser: calls the (memoized) getUser, then re-checks that the result
is an object with truthy id and username; on a failed re-check it logs the
client out and redirects. -/
def requireUser (ctx : ReqCtx) : Except String User × ReqCtx :=
  let res := getUserQuery ctx
  match res.1 with
  | .error e => (.error e, res.2)
  | .ok user =>
    if !strTruthy user.id || !strTruthy user.username then
      (.error "/login", { res.2 with sess := { userId := none } })
    else
      (.ok user, res.2)

/-- N successive requireUser calls within one request, collecting every
result. -/
def requireUserN : Nat → ReqCtx → List (Except String User) × ReqCtx
  | 0, ctx => ([], ctx)
  | n + 1, ctx =>
    ((requireUser ctx).1 :: (requireUserN n (requireUser ctx).2).1,
     (requireUserN n (requireUser ctx).2).2)

/-- Outcome of a form submission through loginOrRegister. -/
inductive FormResult where
  | errorResult (msg : String)
  | redirectHome
deriving Repr, DecidableEq

/-- Instrumented outcome of loginOrRegister: the returned value, the number of
bcrypt operations (hash or compare) performed, the number of credential-store
queries performed, and the resulting store and session. -/
structure FormOutcome where
  result : FormResult
  hashOps : Nat
  storeLookups : Nat
  store : Store
  sess : SessionData
deriving Repr, DecidableEq

/-- loginOrRegister (with-auth variant), with Server.login, Server.register and
Db.createUser inlined so that bcrypt work and store queries can be counted.
Validation runs only when loginType is not login, via
validateUsername(username) or-else validatePassword(password); a validation
message returns immediately, before any store or hashing work.  On success the
session is updated with d.userId = user.id and the action redirects home. -/
def loginOrRegister (sudoMode : Bool) (store : Store) (sess : SessionData)
    (loginType username password newId : String) : FormOutcome :=
  if loginType != "login" then
    match Server.validateUsername username with
    | some msg =>
      { result := .errorResult msg, hashOps := 0, storeLookups := 0,
        store := store, sess := sess }
    | none =>
      match Server.validatePassword password with
      | some msg =>
        { result := .errorResult msg, hashOps := 0, storeLookups := 0,
          store := store, sess := sess }
      | none =>
        match Db.findUserByUsername store username with
        | some _ =>
          { result := .errorResult "User already exists", hashOps := 0,
            storeLookups := 1, store := store, sess := sess }
        | none =>
          if sudoMode then
            if store.any (fun r => r.id == newId)
                || store.any (fun r => r.username == username) then
              { result := .errorResult "SqliteError: UNIQUE constraint failed",
                hashOps := 1, storeLookups := 1, store := store, sess := sess }
            else
              { result := .redirectHome, hashOps := 1, storeLookups := 1,
                store := store ++
                  [{ id := newId, username := username,
                     pass_hash := hashPassword password }],
                sess := { userId := some newId } }
          else
            { result := .errorResult "User Registration is not Authorized",
              hashOps := 0, storeLookups := 1, store := store, sess := sess }
  else
    match Db.findUserByUsername store username with
    | none =>
      { result := .errorResult "Invalid login", hashOps := 0, storeLookups := 1,
        store := store, sess := sess }
    | some user =>
      match Db.getUserPasswordHash store username with
      | none =>
        { result := .errorResult "Invalid login", hashOps := 0, storeLookups := 2,
          store := store, sess := sess }
      | some passwordHash =>
        if !strTruthy passwordHash then
          { result := .errorResult "Invalid login", hashOps := 0, storeLookups := 2,
            store := store, sess := sess }
        else if verifyPassword password passwordHash then
          { result := .redirectHome, hashOps := 1, storeLookups := 2,
            store := store, sess := { userId := some user.id } }
        else
          { result := .errorResult "Invalid login", hashOps := 1, storeLookups := 2,
            store := store, sess := sess }

end AuthApi

/-! Helper lemmas. -/

/-- find? over an append skips a first part that has no match. -/
theorem find?_append_of_none {α : Type} (p : α → Bool) {l1 : List α} (l2 : List α)
    (h : l1.find? p = none) : (l1 ++ l2).find? p = l2.find? p := by
  rw [List.find?_append, h, Option.none_or]

/-- An any-free list has no find? hit. -/
theorem find?_eq_none_of_any_eq_false {α : Type} {p : α → Bool} {l : List α}
    (h : l.any p = false) : l.find? p = none := by
  rw [List.find?_eq_none]
  intro x hx hpx
  have : l.any p = true := List.any_eq_true.mpr ⟨x, hx, hpx⟩
  rw [this] at h
  exact absurd h (by simp)

/-- The isUser signal never leaves true: the effect only ever sets it to true. -/
theorem guardStep_true (a : Option Bool) : RouteGuard.guardStep true a = true := by
  unfold RouteGuard.guardStep
  cases optTruthy a <;> rfl

/-- Once true, isUser has no further transitions to count. -/
theorem flipCountFrom_true (t : List (Option Bool)) :
    RouteGuard.flipCountFrom true t = 0 := by
  induction t with
  | nil => rfl
  | cons a rest ih =>
    unfold RouteGuard.flipCountFrom
    rw [guardStep_true]
    simpa using ih

/-- From false, the number of false-to-true transitions is one exactly when
some effect run sees a truthy auth status, else zero. -/
theorem flipCountFrom_false (t : List (Option Bool)) :
    RouteGuard.flipCountFrom false t = if t.any optTruthy then 1 else 0 := by
  induction t with
  | nil => rfl
  | cons a rest ih =>
    unfold RouteGuard.flipCountFrom
    cases ha : optTruthy a with
    | true =>
      simp [RouteGuard.guardStep, ha, flipCountFrom_true, List.any_cons]
    | false =>
      simp [RouteGuard.guardStep, ha, ih, List.any_cons]

/-- The isUser signal after a trace is exactly whether some effect run saw a
truthy auth status. -/
theorem runGuard_eq_any (t : List (Option Bool)) :
    RouteGuard.runGuard t = t.any optTruthy := by
  have aux : ∀ (l : List (Option Bool)) (s : Bool),
      l.foldl RouteGuard.guardStep s = (s || l.any optTruthy) := by
    intro l
    induction l with
    | nil => intro s; simp
    | cons a rest ih =>
      intro s
      rw [List.foldl_cons, ih, List.any_cons]
      cases s <;> cases ha : optTruthy a <;> simp [RouteGuard.guardStep, ha]
  unfold RouteGuard.runGuard
  rw [aux]
  simp

/-- C1: a session-resolution input whose structure is present but lacks a
truthy id field (such as the empty object) is treated as unauthenticated:
getUser returns null and ensureAuthenticated redirects to /login; presence is
judged by the id field, never by object existence. -/
theorem guard_rejects_empty_identity (data : AuthTs.UserSessionData)
    (db : AuthTs.StoreAccess) (h : optStrTruthy data.id = false) :
    (AuthTs.getUser (some data) db).1 = none ∧
    RouteGuard.ensureAuthenticated (some data) db = .error "/login" := by
  have hget : (AuthTs.getUser (some data) db).1 = none := by
    cases hdi : data.id with
    | none => simp [AuthTs.getUser, hdi]
    | some uid =>
      have huid : strTruthy uid = false := by simpa [optStrTruthy, hdi] using h
      simp [AuthTs.getUser, hdi, huid]
  exact ⟨hget, by simp [RouteGuard.ensureAuthenticated, hget]⟩

/-- C1 witness: the empty session object is rejected. -/
theorem guard_rejects_empty_identity_witness :
    (AuthTs.getUser (some ⟨none, none, none⟩) (.ok [])).1 = none ∧
    RouteGuard.ensureAuthenticated (some ⟨none, none, none⟩) (.ok []) =
      .error "/login" :=
  guard_rejects_empty_identity ⟨none, none, none⟩ (.ok []) rfl

/-- C9: the RouteGuard isUser signal starts false, a true signal is never
reset by any further effect run, the signal makes at most one false-to-true
transition along any trace of effect runs, it makes that transition exactly
when the memoized resolution has succeeded, and the protected children are
revealed exactly when this derived boolean is true. -/
theorem route_guard_boolean_gate (trace : List (Option Bool)) (a : Option Bool) :
    RouteGuard.runGuard [] = false ∧
    RouteGuard.guardStep true a = true ∧
    RouteGuard.flipCount trace ≤ 1 ∧
    (RouteGuard.flipCount trace = 1 ↔ RouteGuard.runGuard trace = true) ∧
    RouteGuard.shownChildren trace = RouteGuard.runGuard trace := by
  refine ⟨rfl, guardStep_true a, ?_, ?_, rfl⟩
  · unfold RouteGuard.flipCount
    rw [flipCountFrom_false]
    split <;> omega
  · unfold RouteGuard.flipCount
    rw [flipCountFrom_false, runGuard_eq_any]
    cases trace.any optTruthy <;> simp

/-- C2 counterexample: in auth.ts loginUser the two failure results are not
identical.  With the store holding only alice, the nonexistent username bob
fails with the message Error, user does not exists, while alice with a wrong
password fails with the distinct message Invalid password, so the caller can
distinguish the cases and enumerate usernames. -/
theorem login_failures_distinguishable :
    (AuthTs.loginUser [⟨"u1", "alice", hashPassword "correct horse battery"⟩]
        none "bob" "pw").1 =
      { success := false, error := some "Error, user does not exists" } ∧
    (AuthTs.loginUser [⟨"u1", "alice", hashPassword "correct horse battery"⟩]
        none "alice" "pw").1 =
      { success := false, error := some "Invalid password" } ∧
    (AuthTs.loginUser [⟨"u1", "alice", hashPassword "correct horse battery"⟩]
        none "bob" "pw").1 ≠
      (AuthTs.loginUser [⟨"u1", "alice", hashPassword "correct horse battery"⟩]
        none "alice" "pw").1 := by
  refine ⟨rfl, rfl, ?_⟩
  decide

/-- C2 amended: both loginUser failures share the shape success false with an
error string, and in the with-auth server.ts login every failure carries the
identical message Invalid login; but auth.ts loginUser answers the two cases
with different error strings (Error, user does not exists versus Invalid
password), so only the server.ts variant is fully indistinguishable. -/
theorem login_failure_shapes :
    (∀ (store : Store) (u p msg : String),
        Server.login store u p = Except.error msg → msg = "Invalid login") ∧
    (∀ (store : Store) (sess : Option AuthTs.UserSessionData) (u p : String),
        AuthTs.getUserId store u = none →
        (AuthTs.loginUser store sess u p).1 =
          { success := false, error := some "Error, user does not exists" }) ∧
    (∀ (store : Store) (sess : Option AuthTs.UserSessionData) (u p uid hsh : String),
        AuthTs.getUserId store u = some uid → strTruthy uid = true →
        AuthTs.getStoredPasswordHash store uid = some hsh →
        verifyPassword p hsh = false →
        (AuthTs.loginUser store sess u p).1 =
          { success := false, error := some "Invalid password" }) := by
  refine ⟨?_, ?_, ?_⟩
  · intro store u p msg h
    unfold Server.login at h
    repeat' split at h
    all_goals simp_all
  · intro store sess u p h
    simp [AuthTs.loginUser, h]
  · intro store sess u p uid hsh h1 h2 h3 h4
    simp [AuthTs.loginUser, h1, h2, h3, h4]

/-- C2 amended witness: concrete failures for a store holding only dana. -/
theorem login_failure_shapes_witness :
    (AuthTs.loginUser [⟨"u4", "dana", hashPassword "another long secret"⟩]
        none "erin" "x").1 =
      { success := false, error := some "Error, user does not exists" } ∧
    (AuthTs.loginUser [⟨"u4", "dana", hashPassword "another long secret"⟩]
        none "dana" "x").1 =
      { success := false, error := some "Invalid password" } ∧
    "Invalid login" = "Invalid login" :=
  ⟨login_failure_shapes.2.1 _ none "erin" "x" rfl,
   login_failure_shapes.2.2 _ none "dana" "x" "u4"
     (hashPassword "another long secret") rfl rfl rfl (by decide),
   login_failure_shapes.1 [] "erin" "x" "Invalid login" rfl⟩

/-- C3 counterexample: the auth.ts resolver does fail closed on a token whose
id has no live row, but it does not clear the client's session token: the
session the client is left with still carries the truthy id u1 (the source
comments that it deliberately avoids clearing to not send headers twice). -/
theorem resolver_keeps_token_on_dangling_id :
    (AuthTs.getUser (some ⟨some "u1", none, none⟩) (.ok [])).1 = none ∧
    (AuthTs.getUser (some ⟨some "u1", none, none⟩) (.ok [])).2 =
      some ⟨some "u1", none, none⟩ ∧
    optStrTruthy (⟨some "u1", none, none⟩ : AuthTs.UserSessionData).id = true := by
  exact ⟨rfl, rfl, rfl⟩

/-- C3 amended: both resolvers fail closed on both failure modes the claim
names: a store that raises while being consulted, and a token id with no live
row, always yield unauthenticated and never a partial identity; the with-auth
resolver additionally clears the session token (userId set to undefined) in
every such case before redirecting, while the auth.ts resolver deliberately
leaves the client's session unchanged. -/
theorem resolver_fails_closed :
    (∀ (sess : Option AuthTs.UserSessionData),
        AuthTs.getUser sess AuthTs.StoreAccess.err = (none, sess)) ∧
    (∀ (data : AuthTs.UserSessionData) (uid : String) (store : Store),
        data.id = some uid →
        (store.find? fun r => r.id == uid) = none →
        AuthTs.getUser (some data) (.ok store) = (none, some data)) ∧
    (∀ (sess : SessionData),
        AuthApi.getUser AuthTs.StoreAccess.err sess =
          (Except.error "/login", { userId := none })) ∧
    (∀ (store : Store) (sess : SessionData) (uid : String),
        sess.userId = some uid → Db.findUserById store uid = none →
        AuthApi.getUser (.ok store) sess =
          (Except.error "/login", { userId := none })) := by
  refine ⟨?_, ?_, ?_, ?_⟩
  · intro sess
    cases sess with
    | none => rfl
    | some data =>
      cases hdi : data.id with
      | none => simp [AuthTs.getUser, hdi]
      | some uid => simp [AuthTs.getUser, hdi]
  · intro data uid store h1 h2
    simp [AuthTs.getUser, h1, h2]
  · intro sess
    cases hs : sess.userId with
    | none => simp [AuthApi.getUser, hs]
    | some uid => simp [AuthApi.getUser, hs]
  · intro store sess uid h1 h2
    simp [AuthApi.getUser, h1, h2]

/-- C3 amended witness: a raising store and a dangling id against an empty
store, in each variant. -/
theorem resolver_fails_closed_witness :
    AuthTs.getUser (some ⟨some "u9", none, none⟩) (.ok []) =
      (none, some ⟨some "u9", none, none⟩) ∧
    AuthApi.getUser AuthTs.StoreAccess.err ⟨some "u9"⟩ =
      (Except.error "/login", { userId := none }) ∧
    AuthApi.getUser (.ok []) ⟨some "u9"⟩ =
      (Except.error "/login", { userId := none }) :=
  ⟨resolver_fails_closed.2.1 _ "u9" [] rfl rfl,
   resolver_fails_closed.2.2.1 ⟨some "u9"⟩,
   resolver_fails_closed.2.2.2 [] _ "u9" rfl rfl⟩

/-- C5 counterexample: in the with-auth variant, when the registration switch
(SUDO_MODE) is off the failure is not uniform: register checks username
existence before the switch, so an existing username fails with User already
exists while a fresh one fails with User Registration is not Authorized,
leaking whether the username is taken while registration is closed. -/
theorem closed_registration_leaks_existence :
    Server.register false [⟨"u1", "alice", hashPassword "pw"⟩]
        "alice" "0123456789abcdef" "u2" = .error "User already exists" ∧
    Server.register false [⟨"u1", "alice", hashPassword "pw"⟩]
        "bob" "0123456789abcdef" "u2" = .error "User Registration is not Authorized" ∧
    Server.register false [⟨"u1", "alice", hashPassword "pw"⟩]
        "alice" "0123456789abcdef" "u2" ≠
      Server.register false [⟨"u1", "alice", hashPassword "pw"⟩]
        "bob" "0123456789abcdef" "u2" := by
  refine ⟨rfl, rfl, ?_⟩
  decide

/-- C5 amended: auth.ts registerUser checks REGISTRATION_ENABLED first and,
when the switch is off, fails with the single uniform result Registration is
currently closed for every input and store; but the with-auth register checks
username existence before its SUDO_MODE switch, so with the switch off its
failure depends on whether the username already exists. -/
theorem closed_registration_uniformity :
    (∀ (env : Option String) (store : Store) (u p nid : String),
        env ≠ some "true" →
        AuthTs.registerUser env store u p nid =
          ({ success := false, error := some "Registration is currently closed" },
           store)) ∧
    (∀ (store : Store) (u p nid : String),
        Db.findUserByUsername store u = none →
        Server.register false store u p nid =
          .error "User Registration is not Authorized") ∧
    (∀ (store : Store) (u p nid : String) (row : UserRow),
        Db.findUserByUsername store u = some row →
        Server.register false store u p nid = .error "User already exists") := by
  refine ⟨?_, ?_, ?_⟩
  · intro env store u p nid h
    have hb : (env != some "true") = true := bne_iff_ne.mpr h
    simp [AuthTs.registerUser, hb]
  · intro store u p nid h
    simp [Server.register, Db.createUser, h]
  · intro store u p nid row h
    simp [Server.register, h]

/-- C5 amended witness: the switch off at concrete inputs in both variants. -/
theorem closed_registration_uniformity_witness :
    AuthTs.registerUser none [⟨"u3", "carol", hashPassword "p3"⟩]
        "carol" "whatever" "u4" =
      ({ success := false, error := some "Registration is currently closed" },
       [⟨"u3", "carol", hashPassword "p3"⟩]) ∧
    Server.register false [⟨"u3", "carol", hashPassword "p3"⟩]
        "dave" "0123456789abcdef" "u4" =
      .error "User Registration is not Authorized" ∧
    Server.register false [⟨"u3", "carol", hashPassword "p3"⟩]
        "carol" "0123456789abcdef" "u4" = .error "User already exists" :=
  ⟨closed_registration_uniformity.1 none _ "carol" "whatever" "u4" (by decide),
   closed_registration_uniformity.2.1 _ "dave" "0123456789abcdef" "u4" (by decide),
   closed_registration_uniformity.2.2 _ "carol" "0123456789abcdef" "u4"
     ⟨"u3", "carol", hashPassword "p3"⟩ (by decide)⟩

/-- C8 counterexample: on a successful auth.ts login the session payload that
session.update writes is the object with both id and username: the payload for
alice carries username alice, not only the id. -/
theorem login_payload_contains_username :
    (AuthTs.loginUser [⟨"u1", "alice", hashPassword "correct horse battery"⟩]
        none "alice" "correct horse battery").1.success = true ∧
    (AuthTs.loginUser [⟨"u1", "alice", hashPassword "correct horse battery"⟩]
        none "alice" "correct horse battery").2 =
      some { id := some "u1", username := some "alice", theme := none } ∧
    (some "alice" : Option String) ≠ none := by
  refine ⟨rfl, rfl, ?_⟩
  decide

/-- C8 amended: on every successful login the with-auth flow stores only the
user id in the session (userId), but auth.ts loginUser stores the object with
id and username, so its payload additionally contains the username, contrary
to its own declared UserSessionData shape of id plus optional theme. -/
theorem session_payload_shapes :
    (∀ (store : Store) (sess : Option AuthTs.UserSessionData) (u p uid hsh : String),
        AuthTs.getUserId store u = some uid → strTruthy uid = true →
        AuthTs.getStoredPasswordHash store uid = some hsh →
        verifyPassword p hsh = true →
        (AuthTs.loginUser store sess u p).2 =
          some { id := some uid, username := some u, theme := none }) ∧
    (∀ (sudoMode : Bool) (store : Store) (sess : SessionData)
        (u p newId : String) (row : UserRow),
        Db.findUserByUsername store u = some row →
        strTruthy row.pass_hash = true →
        verifyPassword p row.pass_hash = true →
        (AuthApi.loginOrRegister sudoMode store sess "login" u p newId).sess =
          { userId := some row.id }) := by
  refine ⟨?_, ?_⟩
  · intro store sess u p uid hsh h1 h2 h3 h4
    simp [AuthTs.loginUser, h1, h2, h3, h4]
  · intro sudoMode store sess u p newId row h1 h2 h3
    have hh : Db.getUserPasswordHash store u = some row.pass_hash := by
      simp [Db.getUserPasswordHash, h1]
    simp [AuthApi.loginOrRegister, h1, hh, h2, h3]

/-- C8 amended witness: successful logins at concrete inputs in both variants. -/
theorem session_payload_shapes_witness :
    (AuthTs.loginUser [⟨"u4", "dana", hashPassword "yet another secret"⟩]
        none "dana" "yet another secret").2 =
      some { id := some "u4", username := some "dana", theme := none } ∧
    (AuthApi.loginOrRegister false [⟨"u4", "dana", hashPassword "yet another secret"⟩]
        { userId := none } "login" "dana" "yet another secret" "n1").sess =
      { userId := some "u4" } :=
  ⟨session_payload_shapes.1 _ none "dana" "yet another secret" "u4"
     (hashPassword "yet another secret") rfl rfl rfl (by decide),
   session_payload_shapes.2 false _ { userId := none } "dana" "yet another secret"
     "n1" ⟨"u4", "dana", hashPassword "yet another secret"⟩ rfl (by decide) (by decide)⟩

/-- C4: for a pair the auth.ts registerUser accepts (switch on, username not
yet taken, generated id fresh and nonempty), a subsequent loginUser with the
same credentials succeeds, and the resolver reads the established session back
to the identity with the registered username, freshly from the store. -/
theorem register_then_login_resolves (store : Store) (u p newId : String)
    (hnid : strTruthy newId = true)
    (hu : store.any (fun r => r.username == u) = false)
    (hid : store.any (fun r => r.id == newId) = false) :
    (AuthTs.registerUser (some "true") store u p newId).1.success = true ∧
    (AuthTs.loginUser (AuthTs.registerUser (some "true") store u p newId).2
        none u p).1.success = true ∧
    (AuthTs.getUser
        (AuthTs.loginUser (AuthTs.registerUser (some "true") store u p newId).2
          none u p).2
        (.ok (AuthTs.registerUser (some "true") store u p newId).2)).1 =
      some { id := newId, username := u } := by
  have hfindu : store.find? (fun r => r.username == u) = none :=
    find?_eq_none_of_any_eq_false hu
  have hfindid : store.find? (fun r => r.id == newId) = none :=
    find?_eq_none_of_any_eq_false hid
  have hgetid : AuthTs.getUserId store u = none := by
    simp [AuthTs.getUserId, hfindu]
  set row : UserRow := { id := newId, username := u, pass_hash := hashPassword p }
    with hrow
  have hreg : AuthTs.registerUser (some "true") store u p newId =
      ({ success := true, error := none }, store ++ [row]) := by
    simp [AuthTs.registerUser, hgetid, hu, hid, optStrTruthy]
  have hfindu2 : (store ++ [row]).find? (fun r => r.username == u) = some row := by
    rw [find?_append_of_none _ _ hfindu]
    simp [hrow, List.find?]
  have hfindid2 : (store ++ [row]).find? (fun r => r.id == newId) = some row := by
    rw [find?_append_of_none _ _ hfindid]
    simp [hrow, List.find?]
  have hgetid2 : AuthTs.getUserId (store ++ [row]) u = some newId := by
    simp [AuthTs.getUserId, hfindu2, hrow]
  have hhash : AuthTs.getStoredPasswordHash (store ++ [row]) newId =
      some (hashPassword p) := by
    simp [AuthTs.getStoredPasswordHash, hfindid2, hrow]
  have hverify : verifyPassword p (hashPassword p) = true := by
    simp [verifyPassword]
  have hlogin : AuthTs.loginUser (store ++ [row]) none u p =
      ({ success := true, error := none },
       some { id := some newId, username := some u, theme := none }) := by
    simp [AuthTs.loginUser, hgetid2, hnid, hhash, hverify]
  rw [hreg]
  dsimp only
  rw [hlogin]
  dsimp only
  refine ⟨rfl, rfl, ?_⟩
  simp [AuthTs.getUser, hnid, hfindid2, hrow]

/-- C4 witness: register frank against the empty store, then log in and
resolve. -/
theorem register_then_login_resolves_witness :
    (AuthTs.registerUser (some "true") [] "frank" "a sixteen char pw"
        "u7").1.success = true ∧
    (AuthTs.loginUser (AuthTs.registerUser (some "true") [] "frank"
        "a sixteen char pw" "u7").2 none "frank" "a sixteen char pw").1.success =
      true ∧
    (AuthTs.getUser
        (AuthTs.loginUser (AuthTs.registerUser (some "true") [] "frank"
          "a sixteen char pw" "u7").2 none "frank" "a sixteen char pw").2
        (.ok (AuthTs.registerUser (some "true") [] "frank" "a sixteen char pw"
          "u7").2)).1 =
      some { id := "u7", username := "frank" } :=
  register_then_login_resolves [] "frank" "a sixteen char pw" "u7" rfl rfl rfl

/-- A cached request context serves the resolver result without rerunning it. -/
theorem getUserQuery_cached (ctx : AuthApi.ReqCtx) (r : Except String User)
    (h : ctx.cache = some r) : AuthApi.getUserQuery ctx = (r, ctx) := by
  simp [AuthApi.getUserQuery, h]

/-- On a cached context, requireUser answers the re-checked cached result and
touches neither the cache nor the lookup counter. -/
theorem requireUser_of_cached (ctx : AuthApi.ReqCtx) (r : Except String User)
    (h : ctx.cache = some r) :
    (AuthApi.requireUser ctx).1 = AuthApi.requireCheck r ∧
    (AuthApi.requireUser ctx).2.cache = some r ∧
    (AuthApi.requireUser ctx).2.storeLookups = ctx.storeLookups := by
  have hq := getUserQuery_cached ctx r h
  unfold AuthApi.requireUser
  rw [hq]
  cases r with
  | error e => simp [AuthApi.requireCheck, h]
  | ok user =>
    cases hb : (!strTruthy user.id || !strTruthy user.username) <;>
      simp [AuthApi.requireCheck, hb, h]

/-- The first requireUser call on a fresh request with a present session id
performs exactly one store lookup and leaves its raw resolver outcome in the
cache. -/
theorem requireUser_first (store : Store) (sess : SessionData) (uid : String)
    (h : sess.userId = some uid) :
    ∃ r : Except String User,
      (AuthApi.requireUser ⟨store, sess, none, 0⟩).1 = AuthApi.requireCheck r ∧
      (AuthApi.requireUser ⟨store, sess, none, 0⟩).2.cache = some r ∧
      (AuthApi.requireUser ⟨store, sess, none, 0⟩).2.storeLookups = 1 := by
  cases hf : Db.findUserById store uid with
  | none =>
    refine ⟨.error "/login", ?_⟩
    simp [AuthApi.requireUser, AuthApi.getUserQuery, AuthApi.requireCheck, h, hf]
  | some user =>
    refine ⟨.ok ⟨user.id, user.username⟩, ?_⟩
    cases hb : (!strTruthy user.id || !strTruthy user.username) <;>
      simp [AuthApi.requireUser, AuthApi.getUserQuery, AuthApi.requireCheck, h, hf, hb]

/-- Iterating requireUser on a cached context never performs another store
lookup, and every returned result is the re-checked cached result. -/
theorem requireUserN_cached (n : Nat) (ctx : AuthApi.ReqCtx) (r : Except String User)
    (h : ctx.cache = some r) :
    (AuthApi.requireUserN n ctx).2.storeLookups = ctx.storeLookups ∧
    ∀ x ∈ (AuthApi.requireUserN n ctx).1, x = AuthApi.requireCheck r := by
  induction n generalizing ctx with
  | zero => simp [AuthApi.requireUserN]
  | succ m ih =>
    obtain ⟨h1, h2, h3⟩ := requireUser_of_cached ctx r h
    obtain ⟨ih1, ih2⟩ := ih (AuthApi.requireUser ctx).2 h2
    constructor
    · simp only [AuthApi.requireUserN]
      rw [ih1, h3]
    · intro x hx
      simp only [AuthApi.requireUserN, List.mem_cons] at hx
      rcases hx with hx | hx
      · rw [hx, h1]
      · exact ih2 x hx

/-- The instrumented auth.ts getUser agrees with the plain one on the
resolved identity. -/
theorem getUserCounted_fst (sess : Option AuthTs.UserSessionData)
    (db : AuthTs.StoreAccess) :
    (AuthTs.getUserCounted sess db).1 = (AuthTs.getUser sess db).1 := by
  cases sess with
  | none => rfl
  | some data =>
    cases hdi : data.id with
    | none => simp [AuthTs.getUser, AuthTs.getUserCounted, hdi]
    | some uid =>
      cases ht : strTruthy uid with
      | false => simp [AuthTs.getUser, AuthTs.getUserCounted, hdi, ht]
      | true =>
        cases db with
        | err => simp [AuthTs.getUser, AuthTs.getUserCounted, hdi, ht]
        | ok store =>
          cases hf : store.find? (fun r => r.id == uid) with
          | none => simp [AuthTs.getUser, AuthTs.getUserCounted, hdi, ht, hf]
          | some row => simp [AuthTs.getUser, AuthTs.getUserCounted, hdi, ht, hf]

/-- A session carrying a truthy id makes every auth.ts getUser call perform
exactly one store query. -/
theorem getUserCounted_one (data : AuthTs.UserSessionData) (uid : String)
    (db : AuthTs.StoreAccess) (h1 : data.id = some uid)
    (h2 : strTruthy uid = true) :
    (AuthTs.getUserCounted (some data) db).2 = 1 := by
  cases db with
  | err => simp [AuthTs.getUserCounted, h1, h2]
  | ok store =>
    cases hf : store.find? (fun r => r.id == uid) with
    | none => simp [AuthTs.getUserCounted, h1, h2, hf]
    | some row => simp [AuthTs.getUserCounted, h1, h2, hf]

/-- C6 counterexample: the auth.ts getUser is not wrapped in the router's
query combinator, so independent call sites within one request (for example
ensureAuthenticated and listNotes) each run it afresh: with a valid session
for alice, two call sites perform two credential-store lookups, not exactly
one, even though each call resolves to the same confirmed identity. -/
theorem resolver_not_memoized_across_call_sites :
    AuthTs.requestLookups 2 (some ⟨some "u1", none, none⟩)
        (.ok [⟨"u1", "alice", hashPassword "pw"⟩]) = 2 ∧
    AuthTs.requestLookups 2 (some ⟨some "u1", none, none⟩)
        (.ok [⟨"u1", "alice", hashPassword "pw"⟩]) ≠ 1 ∧
    (AuthTs.getUser (some ⟨some "u1", none, none⟩)
        (.ok [⟨"u1", "alice", hashPassword "pw"⟩])).1 =
      some { id := "u1", username := "alice" } := by
  refine ⟨rfl, ?_, rfl⟩
  decide

/-- C6 amended: within one logical request whose session carries a user id,
N calls (N at least 1) through the with-auth requireUser — whose underlying
getUser is query-wrapped and hence memoized — perform exactly one credential
store lookup in total and every call returns the first call's result; but the
auth.ts getUser has no such wrapper, so n independent call sites invoking it
perform n separate lookups, one each. -/
theorem request_lookup_counts :
    (∀ (store : Store) (sess : SessionData) (uid : String) (n : Nat),
        sess.userId = some uid → 1 ≤ n →
        (AuthApi.requireUserN n ⟨store, sess, none, 0⟩).2.storeLookups = 1 ∧
        ∀ x ∈ (AuthApi.requireUserN n ⟨store, sess, none, 0⟩).1,
          x = (AuthApi.requireUser ⟨store, sess, none, 0⟩).1) ∧
    (∀ (n : Nat) (data : AuthTs.UserSessionData) (uid : String)
        (db : AuthTs.StoreAccess),
        data.id = some uid → strTruthy uid = true →
        AuthTs.requestLookups n (some data) db = n) := by
  constructor
  · intro store sess uid n hsess hn
    obtain ⟨m, rfl⟩ : ∃ m, n = m + 1 := ⟨n - 1, by omega⟩
    obtain ⟨r, hr1, hr2, hr3⟩ := requireUser_first store sess uid hsess
    obtain ⟨hc1, hc2⟩ :=
      requireUserN_cached m (AuthApi.requireUser ⟨store, sess, none, 0⟩).2 r hr2
    constructor
    · simp only [AuthApi.requireUserN]
      rw [hc1, hr3]
    · intro x hx
      simp only [AuthApi.requireUserN, List.mem_cons] at hx
      rcases hx with hx | hx
      · exact hx
      · rw [hc2 x hx, hr1]
  · intro n data uid db h1 h2
    induction n with
    | zero => rfl
    | succ m ih =>
      unfold AuthTs.requestLookups
      rw [ih, getUserCounted_one data uid db h1 h2]
      omega

/-- C6 amended witness: three memoized calls do one lookup with equal
results, and two unmemoized auth.ts call sites do two lookups. -/
theorem request_lookup_counts_witness :
    ((AuthApi.requireUserN 3
        ⟨[⟨"u1", "alice", hashPassword "pw"⟩], ⟨some "u1"⟩, none, 0⟩).2.storeLookups = 1 ∧
      ∀ x ∈ (AuthApi.requireUserN 3
          ⟨[⟨"u1", "alice", hashPassword "pw"⟩], ⟨some "u1"⟩, none, 0⟩).1,
        x = (AuthApi.requireUser
          ⟨[⟨"u1", "alice", hashPassword "pw"⟩], ⟨some "u1"⟩, none, 0⟩).1) ∧
    AuthTs.requestLookups 2 (some ⟨some "u2", none, none⟩) (.ok []) = 2 :=
  ⟨request_lookup_counts.1 _ _ "u1" 3 rfl (by omega),
   request_lookup_counts.2 2 ⟨some "u2", none, none⟩ "u2" (.ok []) rfl rfl⟩

/-- C7: a session that previously resolved to a valid identity stops
resolving as soon as the user's row is deleted from the store: the next
resolution yields unauthenticated and returns the unchanged (still
decryptable, still id-bearing) session token. -/
theorem revocation_on_delete (store store2 : Store) (data : AuthTs.UserSessionData)
    (uid : String) (user : User)
    (hid : data.id = some uid)
    (hres : (AuthTs.getUser (some data) (.ok store)).1 = some user)
    (hdel : Db.deleteUser true store uid = .ok store2) :
    AuthTs.getUser (some data) (.ok store2) = (none, some data) := by
  have hstore2 : store2 = store.filter (fun r => r.id != uid) := by
    unfold Db.deleteUser at hdel
    rw [if_pos rfl] at hdel
    dsimp only at hdel
    split at hdel
    · exact absurd hdel (by simp)
    · exact (Except.ok.inj hdel).symm
  have hfind : store2.find? (fun r => r.id == uid) = none := by
    rw [hstore2, List.find?_eq_none]
    intro x hx
    rw [List.mem_filter] at hx
    have hx2 := hx.2
    simp only [bne_iff_ne] at hx2
    simp [hx2]
  cases ht : strTruthy uid with
  | true => simp [AuthTs.getUser, hid, ht, hfind]
  | false =>
    simp [AuthTs.getUser, hid, ht] at hres

/-- C7 witness: delete the only user and resolve the still-present token. -/
theorem revocation_on_delete_witness :
    AuthTs.getUser (some ⟨some "u8", none, none⟩) (.ok []) =
      (none, some ⟨some "u8", none, none⟩) :=
  revocation_on_delete [⟨"u8", "bob", hashPassword "pw2"⟩] []
    ⟨some "u8", none, none⟩ "u8" ⟨"u8", "bob"⟩ rfl rfl (by decide)

/-- C10: in the form-submission action, the registration branch rejects a
username shorter than 3 characters, and a password shorter than 16 characters,
with a validation error before any bcrypt work or store access, while the
login branch applies no length validation and always reaches the credential
store lookup. -/
theorem form_validation_branches (sudoMode : Bool) (store : Store)
    (sess : SessionData) (loginType username password newId : String) :
    (loginType ≠ "login" → username.length < 3 →
      AuthApi.loginOrRegister sudoMode store sess loginType username password newId =
        { result := .errorResult "Usernames must be at least 3 characters long",
          hashOps := 0, storeLookups := 0, store := store, sess := sess }) ∧
    (loginType ≠ "login" → 3 ≤ username.length → password.length < 16 →
      AuthApi.loginOrRegister sudoMode store sess loginType username password newId =
        { result := .errorResult "Passwords must be at least 16 characters long",
          hashOps := 0, storeLookups := 0, store := store, sess := sess }) ∧
    (loginType = "login" →
      1 ≤ (AuthApi.loginOrRegister sudoMode store sess loginType username
            password newId).storeLookups) := by
  refine ⟨?_, ?_, ?_⟩
  · intro h1 h2
    have hb : (loginType != "login") = true := bne_iff_ne.mpr h1
    simp [AuthApi.loginOrRegister, hb, Server.validateUsername, h2]
  · intro h1 h2 h3
    have hb : (loginType != "login") = true := bne_iff_ne.mpr h1
    have hv : Server.validateUsername username = none := by
      simp only [Server.validateUsername, ite_eq_right_iff]
      omega
    simp [AuthApi.loginOrRegister, hb, hv, Server.validatePassword, h3]
  · intro h1
    subst h1
    cases hf : Db.findUserByUsername store username with
    | none => simp [AuthApi.loginOrRegister, hf]
    | some user =>
      cases hh : Db.getUserPasswordHash store username with
      | none => simp [AuthApi.loginOrRegister, hf, hh]
      | some ph =>
        cases hs : strTruthy ph with
        | false => simp [AuthApi.loginOrRegister, hf, hh, hs]
        | true =>
          cases hv : verifyPassword password ph with
          | false => simp [AuthApi.loginOrRegister, hf, hh, hs, hv]
          | true => simp [AuthApi.loginOrRegister, hf, hh, hs, hv]

/-- C10 witness: a short username is rejected with no store or bcrypt work,
and a login with one-character credentials still reaches the store lookup. -/
theorem form_validation_branches_witness :
    AuthApi.loginOrRegister false [] { userId := none } "register" "ab"
        "0123456789abcdef" "n1" =
      { result := .errorResult "Usernames must be at least 3 characters long",
        hashOps := 0, storeLookups := 0, store := [], sess := { userId := none } } ∧
    1 ≤ (AuthApi.loginOrRegister false [] { userId := none } "login" "a" "b"
          "n1").storeLookups :=
  ⟨(form_validation_branches false [] { userId := none } "register" "ab"
      "0123456789abcdef" "n1").1 (by decide) (by decide),
   (form_validation_branches false [] { userId := none } "login" "a" "b"
      "n1").2.2 rfl⟩
